import Mathlib

/-!
Shallow embedding of the register-field codec layer, the Controller dispatch
and the Transport contract of the ILI9341 command library (`src/lib.rs`).

Machine integers are embedded as `Nat` (for `u8`, `u16`, `u32`) and `Int`
(for `i8`).  Arithmetic that can panic in a debug build of the source
(`u8`/`i8` overflow or underflow on `-` and `+`) is modelled with checked
operations returning `Option`; a `none` result models the panic.  The
`panic!` arm of the source's `enum_with_from!` macro (decoding a code
outside the documented set) is likewise modelled as `none`.

Each Rust parameter-block module becomes a Lean namespace of the same name:
the block struct holds its `data` bytes, the `Read`/`Write` view structs
wrap the block, and each field accessor is translated expression by
expression from the source.
-/

set_option maxRecDepth 8192

namespace Ili9341

/-- Bitwise complement on a `u8` value: Rust `!x` for `x : u8`. -/
def not8 (x : Nat) : Nat := 255 ^^^ x

/-- Truncating cast to `u8`: Rust `x as u8` from a wider unsigned integer. -/
def toU8 (x : Nat) : Nat := x &&& 255

/-- Checked `u8` subtraction: Rust `a - b` panics on underflow in debug
builds; the panic is modelled as `none`. -/
def subU8 (a b : Nat) : Option Nat := if b ≤ a then some (a - b) else none

/-- Checked `u8` addition: Rust `a + b` panics on overflow in debug builds. -/
def addU8 (a b : Nat) : Option Nat := if a + b ≤ 255 then some (a + b) else none

/-- Cast `u8` to `i8` (Rust `x as i8`): two's-complement reinterpretation. -/
def u8ToI8 (x : Nat) : Int := if x < 128 then (x : Int) else (x : Int) - 256

/-- Cast `i8` to `u8` (Rust `x as u8`): two's-complement reinterpretation. -/
def i8ToU8 (x : Int) : Nat := (x % 256).toNat

/-- Checked `i8` subtraction: panics (debug) when the result leaves
`[-128, 127]`. -/
def subI8 (a b : Int) : Option Int :=
  if -128 ≤ a - b ∧ a - b ≤ 127 then some (a - b) else none

/-- Checked `i8` addition: panics (debug) when the result leaves
`[-128, 127]`. -/
def addI8 (a b : Int) : Option Int :=
  if -128 ≤ a + b ∧ a + b ≤ 127 then some (a + b) else none

namespace read_display_power_mode

/-- Source enum `Booster`, codes 0x00 / 0x01. -/
inductive Booster
  | BoosterOffOrHasAFault
  | BoosterOnAndWorkingOk
  deriving DecidableEq, Fintype

/-- Rust `w as u8` on a `Booster` variant. -/
def Booster.code : Booster → Nat
  | .BoosterOffOrHasAFault => 0x00
  | .BoosterOnAndWorkingOk => 0x01

/-- Source `impl From<u8> for Booster`; the `panic!` arm is `none`. -/
def Booster.fromCode : Nat → Option Booster
  | 0x00 => some .BoosterOffOrHasAFault
  | 0x01 => some .BoosterOnAndWorkingOk
  | _ => none

/-- Source enum `IdleMode`, codes 0x00 / 0x01. -/
inductive IdleMode
  | IdleModeOff
  | IdleModeOn
  deriving DecidableEq, Fintype

/-- Rust `w as u8` on an `IdleMode` variant. -/
def IdleMode.code : IdleMode → Nat
  | .IdleModeOff => 0x00
  | .IdleModeOn => 0x01

/-- Source `impl From<u8> for IdleMode`; the `panic!` arm is `none`. -/
def IdleMode.fromCode : Nat → Option IdleMode
  | 0x00 => some .IdleModeOff
  | 0x01 => some .IdleModeOn
  | _ => none

/-- Source enum `PartialMode`, codes 0x00 / 0x01. -/
inductive PartialMode
  | PartialModeOff
  | PartialModeOn
  deriving DecidableEq, Fintype

/-- Rust `w as u8` on a `PartialMode` variant. -/
def PartialMode.code : PartialMode → Nat
  | .PartialModeOff => 0x00
  | .PartialModeOn => 0x01

/-- Source `impl From<u8> for PartialMode`; the `panic!` arm is `none`. -/
def PartialMode.fromCode : Nat → Option PartialMode
  | 0x00 => some .PartialModeOff
  | 0x01 => some .PartialModeOn
  | _ => none

/-- Source enum `Sleep`, codes 0x00 / 0x01. -/
inductive Sleep
  | SleepInMode
  | SleepOutMode
  deriving DecidableEq, Fintype

/-- Rust `w as u8` on a `Sleep` variant. -/
def Sleep.code : Sleep → Nat
  | .SleepInMode => 0x00
  | .SleepOutMode => 0x01

/-- Source `impl From<u8> for Sleep`; the `panic!` arm is `none`. -/
def Sleep.fromCode : Nat → Option Sleep
  | 0x00 => some .SleepInMode
  | 0x01 => some .SleepOutMode
  | _ => none

/-- Source enum `DisplayNormalMode`, codes 0x00 / 0x01. -/
inductive DisplayNormalMode
  | DisplayNormalModeOff
  | DisplayNormalModeOn
  deriving DecidableEq, Fintype

/-- Rust `w as u8` on a `DisplayNormalMode` variant. -/
def DisplayNormalMode.code : DisplayNormalMode → Nat
  | .DisplayNormalModeOff => 0x00
  | .DisplayNormalModeOn => 0x01

/-- Source `impl From<u8> for DisplayNormalMode`; the `panic!` arm is `none`. -/
def DisplayNormalMode.fromCode : Nat → Option DisplayNormalMode
  | 0x00 => some .DisplayNormalModeOff
  | 0x01 => some .DisplayNormalModeOn
  | _ => none

/-- Source enum `DisplayIs`, codes 0x00 / 0x01. -/
inductive DisplayIs
  | DisplayIsOff
  | DisplayIsOn
  deriving DecidableEq, Fintype

/-- Rust `w as u8` on a `DisplayIs` variant. -/
def DisplayIs.code : DisplayIs → Nat
  | .DisplayIsOff => 0x00
  | .DisplayIsOn => 0x01

/-- Source `impl From<u8> for DisplayIs`; the `panic!` arm is `none`. -/
def DisplayIs.fromCode : Nat → Option DisplayIs
  | 0x00 => some .DisplayIsOff
  | 0x01 => some .DisplayIsOn
  | _ => none

/-- Parameter block `DisplayPowerMode { data: [u8; 1] }`. -/
structure DisplayPowerMode where
  b0 : Nat
  deriving DecidableEq

/-- Source `Default`: `data: [0x08]`. -/
def DisplayPowerMode.default : DisplayPowerMode := ⟨0x08⟩

/-- The wire bytes of the block (`.data`). -/
def DisplayPowerMode.bytes (d : DisplayPowerMode) : List Nat := [d.b0]

/-- Rebuild a block from bytes received through the transport. -/
def DisplayPowerMode.ofBytes (l : List Nat) : DisplayPowerMode := ⟨l.headD 0⟩

/-- Borrowed read view over a `DisplayPowerMode` block. -/
structure DisplayPowerModeRead where
  d : DisplayPowerMode

/-- Borrowed write view over a `DisplayPowerMode` block. -/
structure DisplayPowerModeWrite where
  d : DisplayPowerMode

/-- Source `DisplayPowerMode::read`. -/
def DisplayPowerMode.read (d : DisplayPowerMode) : DisplayPowerModeRead := ⟨d⟩

/-- Source `DisplayPowerMode::write`: applies the builder closure. -/
def DisplayPowerMode.write (d : DisplayPowerMode)
    (f : DisplayPowerModeWrite → DisplayPowerModeWrite) : DisplayPowerMode :=
  (f ⟨d⟩).d

/-- Getter `booster`: `Booster::from((data[0] >> 7) & 0x01)`. -/
def DisplayPowerModeRead.booster (r : DisplayPowerModeRead) : Option Booster :=
  Booster.fromCode ((r.d.b0 >>> 7) &&& 0x01)

/-- Getter `idle_mode`: `IdleMode::from((data[0] >> 6) & 0x01)`. -/
def DisplayPowerModeRead.idle_mode (r : DisplayPowerModeRead) : Option IdleMode :=
  IdleMode.fromCode ((r.d.b0 >>> 6) &&& 0x01)

/-- Getter `partial_mode`: `PartialMode::from((data[0] >> 5) & 0x01)`. -/
def DisplayPowerModeRead.partial_mode (r : DisplayPowerModeRead) : Option PartialMode :=
  PartialMode.fromCode ((r.d.b0 >>> 5) &&& 0x01)

/-- Getter `sleep`: `Sleep::from((data[0] >> 4) & 0x01)`. -/
def DisplayPowerModeRead.sleep (r : DisplayPowerModeRead) : Option Sleep :=
  Sleep.fromCode ((r.d.b0 >>> 4) &&& 0x01)

/-- Getter `display_normal_mode`: `DisplayNormalMode::from((data[0] >> 3) & 0x01)`. -/
def DisplayPowerModeRead.display_normal_mode (r : DisplayPowerModeRead) :
    Option DisplayNormalMode :=
  DisplayNormalMode.fromCode ((r.d.b0 >>> 3) &&& 0x01)

/-- Getter `display_is`: `DisplayIs::from((data[0] >> 2) & 0x01)`. -/
def DisplayPowerModeRead.display_is (r : DisplayPowerModeRead) : Option DisplayIs :=
  DisplayIs.fromCode ((r.d.b0 >>> 2) &&& 0x01)

/-- Setter `booster`: `data[0] &= !(0x01 << 7); data[0] |= (w & 0x01) << 7`. -/
def DisplayPowerModeWrite.booster (w : DisplayPowerModeWrite) (v : Booster) :
    DisplayPowerModeWrite :=
  ⟨⟨(w.d.b0 &&& not8 (0x01 <<< 7)) ||| ((v.code &&& 0x01) <<< 7)⟩⟩

/-- Setter `idle_mode`: bit 6, same shape as `booster`. -/
def DisplayPowerModeWrite.idle_mode (w : DisplayPowerModeWrite) (v : IdleMode) :
    DisplayPowerModeWrite :=
  ⟨⟨(w.d.b0 &&& not8 (0x01 <<< 6)) ||| ((v.code &&& 0x01) <<< 6)⟩⟩

/-- Setter `partial_mode`: bit 5. -/
def DisplayPowerModeWrite.partial_mode (w : DisplayPowerModeWrite) (v : PartialMode) :
    DisplayPowerModeWrite :=
  ⟨⟨(w.d.b0 &&& not8 (0x01 <<< 5)) ||| ((v.code &&& 0x01) <<< 5)⟩⟩

/-- Setter `sleep`: bit 4. -/
def DisplayPowerModeWrite.sleep (w : DisplayPowerModeWrite) (v : Sleep) :
    DisplayPowerModeWrite :=
  ⟨⟨(w.d.b0 &&& not8 (0x01 <<< 4)) ||| ((v.code &&& 0x01) <<< 4)⟩⟩

/-- Setter `display_normal_mode`: bit 3. -/
def DisplayPowerModeWrite.display_normal_mode (w : DisplayPowerModeWrite)
    (v : DisplayNormalMode) : DisplayPowerModeWrite :=
  ⟨⟨(w.d.b0 &&& not8 (0x01 <<< 3)) ||| ((v.code &&& 0x01) <<< 3)⟩⟩

/-- Setter `display_is`: bit 2. -/
def DisplayPowerModeWrite.display_is (w : DisplayPowerModeWrite) (v : DisplayIs) :
    DisplayPowerModeWrite :=
  ⟨⟨(w.d.b0 &&& not8 (0x01 <<< 2)) ||| ((v.code &&& 0x01) <<< 2)⟩⟩

end read_display_power_mode

namespace read_display_identification_information

/-- Parameter block `DisplayIdentificationInformation { data: [u8; 3] }`. -/
structure DisplayIdentificationInformation where
  data : List Nat
  deriving DecidableEq

/-- Source `Default`: `data: [0x00, 0x00, 0x00]`. -/
def DisplayIdentificationInformation.default : DisplayIdentificationInformation :=
  ⟨[0x00, 0x00, 0x00]⟩

/-- The wire bytes of the block (`.data`). -/
def DisplayIdentificationInformation.bytes
    (d : DisplayIdentificationInformation) : List Nat := d.data

/-- Rebuild a block from bytes received through the transport. -/
def DisplayIdentificationInformation.ofBytes
    (l : List Nat) : DisplayIdentificationInformation := ⟨l⟩

end read_display_identification_information

namespace gamma

/-- Source enum `CurveSelected`, single documented code 0x01. -/
inductive CurveSelected
  | GammaCurve1G2o2
  deriving DecidableEq, Fintype

/-- Rust `w as u8` on a `CurveSelected` variant. -/
def CurveSelected.code : CurveSelected → Nat
  | .GammaCurve1G2o2 => 0x01

/-- Source `impl From<u8> for CurveSelected`; the `panic!` arm is `none`. -/
def CurveSelected.fromCode : Nat → Option CurveSelected
  | 0x01 => some .GammaCurve1G2o2
  | _ => none

/-- Parameter block `GammaSet { data: [u8; 1] }`. -/
structure GammaSet where
  b0 : Nat
  deriving DecidableEq

/-- Source `Default`: `data: [0x01]`. -/
def GammaSet.default : GammaSet := ⟨0x01⟩

/-- The wire bytes of the block (`.data`). -/
def GammaSet.bytes (d : GammaSet) : List Nat := [d.b0]

/-- Borrowed read view over a `GammaSet` block. -/
structure GammaSetRead where
  d : GammaSet

/-- Borrowed write view over a `GammaSet` block. -/
structure GammaSetWrite where
  d : GammaSet

/-- Source `GammaSet::read`. -/
def GammaSet.read (d : GammaSet) : GammaSetRead := ⟨d⟩

/-- Source `GammaSet::write`: applies the builder closure. -/
def GammaSet.write (d : GammaSet) (f : GammaSetWrite → GammaSetWrite) : GammaSet :=
  (f ⟨d⟩).d

/-- Getter `curve_selected`: `CurveSelected::from(data[0])`. -/
def GammaSetRead.curve_selected (r : GammaSetRead) : Option CurveSelected :=
  CurveSelected.fromCode r.d.b0

/-- Setter `curve_selected`: `data[0] = w as u8`. -/
def GammaSetWrite.curve_selected (w : GammaSetWrite) (v : CurveSelected) :
    GammaSetWrite :=
  ⟨⟨v.code⟩⟩

end gamma

namespace column_address

/-- Parameter block `ColumnAddressSet { data: [u8; 4] }`. -/
structure ColumnAddressSet where
  b0 : Nat
  b1 : Nat
  b2 : Nat
  b3 : Nat
  deriving DecidableEq

/-- Source `Default`: `data: [0x00, 0x00, 0x00, 0xEF]`. -/
def ColumnAddressSet.default : ColumnAddressSet := ⟨0x00, 0x00, 0x00, 0xEF⟩

/-- The wire bytes of the block (`.data`). -/
def ColumnAddressSet.bytes (d : ColumnAddressSet) : List Nat :=
  [d.b0, d.b1, d.b2, d.b3]

/-- Borrowed read view over a `ColumnAddressSet` block. -/
structure ColumnAddressSetRead where
  d : ColumnAddressSet

/-- Borrowed write view over a `ColumnAddressSet` block. -/
structure ColumnAddressSetWrite where
  d : ColumnAddressSet

/-- Source `ColumnAddressSet::read`. -/
def ColumnAddressSet.read (d : ColumnAddressSet) : ColumnAddressSetRead := ⟨d⟩

/-- Source `ColumnAddressSet::write`: applies the builder closure. -/
def ColumnAddressSet.write (d : ColumnAddressSet)
    (f : ColumnAddressSetWrite → ColumnAddressSetWrite) : ColumnAddressSet :=
  (f ⟨d⟩).d

/-- Getter `sc`: `((data[0] as u16) << 8) | (data[1] as u16)`. -/
def ColumnAddressSetRead.sc (r : ColumnAddressSetRead) : Nat :=
  (r.d.b0 <<< 8) ||| r.d.b1

/-- Getter `ec`: `((data[2] as u16) << 8) | (data[3] as u16)`. -/
def ColumnAddressSetRead.ec (r : ColumnAddressSetRead) : Nat :=
  (r.d.b2 <<< 8) ||| r.d.b3

/-- Setter `sc`: `data[0] = (w >> 8) as u8; data[1] = w as u8`. -/
def ColumnAddressSetWrite.sc (w : ColumnAddressSetWrite) (v : Nat) :
    ColumnAddressSetWrite :=
  ⟨{ w.d with b0 := toU8 (v >>> 8), b1 := toU8 v }⟩

/-- Setter `ec`: `data[2] = (w >> 8) as u8; data[3] = w as u8`. -/
def ColumnAddressSetWrite.ec (w : ColumnAddressSetWrite) (v : Nat) :
    ColumnAddressSetWrite :=
  ⟨{ w.d with b2 := toU8 (v >>> 8), b3 := toU8 v }⟩

end column_address

namespace page_address

/-- Parameter block `PageAddressSet { data: [u8; 4] }`. -/
structure PageAddressSet where
  b0 : Nat
  b1 : Nat
  b2 : Nat
  b3 : Nat
  deriving DecidableEq

/-- Source `Default`: `data: [0x00, 0x00, 0x01, 0x3F]`. -/
def PageAddressSet.default : PageAddressSet := ⟨0x00, 0x00, 0x01, 0x3F⟩

/-- Borrowed read view over a `PageAddressSet` block. -/
structure PageAddressSetRead where
  d : PageAddressSet

/-- Borrowed write view over a `PageAddressSet` block. -/
structure PageAddressSetWrite where
  d : PageAddressSet

/-- Source `PageAddressSet::read`. -/
def PageAddressSet.read (d : PageAddressSet) : PageAddressSetRead := ⟨d⟩

/-- Source `PageAddressSet::write`: applies the builder closure. -/
def PageAddressSet.write (d : PageAddressSet)
    (f : PageAddressSetWrite → PageAddressSetWrite) : PageAddressSet :=
  (f ⟨d⟩).d

/-- Getter `sp`: `((data[0] as u16) << 8) | (data[1] as u16)`. -/
def PageAddressSetRead.sp (r : PageAddressSetRead) : Nat :=
  (r.d.b0 <<< 8) ||| r.d.b1

/-- Getter `ep`: `((data[2] as u16) << 8) | (data[3] as u16)`. -/
def PageAddressSetRead.ep (r : PageAddressSetRead) : Nat :=
  (r.d.b2 <<< 8) ||| r.d.b3

/-- Setter `sp`: `data[0] = (w >> 8) as u8; data[1] = w as u8`. -/
def PageAddressSetWrite.sp (w : PageAddressSetWrite) (v : Nat) :
    PageAddressSetWrite :=
  ⟨{ w.d with b0 := toU8 (v >>> 8), b1 := toU8 v }⟩

/-- Setter `ep`: `data[2] = (w >> 8) as u8; data[3] = w as u8`. -/
def PageAddressSetWrite.ep (w : PageAddressSetWrite) (v : Nat) :
    PageAddressSetWrite :=
  ⟨{ w.d with b2 := toU8 (v >>> 8), b3 := toU8 v }⟩

end page_address

namespace color

/-- Semantics of `seg.iter_mut().zip(w.iter()).for_each(|(dd, ww)| *dd = *ww & 0x3F)`:
positions up to `min seg.length w.length` take the masked input byte, the
remaining positions of `seg` are unchanged. -/
def zipMask (seg w : List Nat) : List Nat :=
  List.zipWith (fun _dd ww => ww &&& 0x3F) seg w ++ seg.drop w.length

/-- Parameter block `ColorSet { data: [u8; 128] }`. -/
structure ColorSet where
  data : List Nat
  deriving DecidableEq

/-- Source `Default`: 128 zero bytes. -/
def ColorSet.default : ColorSet := ⟨List.replicate 128 0⟩

/-- Borrowed read view over a `ColorSet` block. -/
structure ColorSetRead where
  d : ColorSet

/-- Borrowed write view over a `ColorSet` block. -/
structure ColorSetWrite where
  d : ColorSet

/-- Source `ColorSet::read`. -/
def ColorSet.read (d : ColorSet) : ColorSetRead := ⟨d⟩

/-- Source `ColorSet::write`: applies the builder closure. -/
def ColorSet.write (d : ColorSet) (f : ColorSetWrite → ColorSetWrite) : ColorSet :=
  (f ⟨d⟩).d

/-- Getter `r`: returns `&data[0..32]`. -/
def ColorSetRead.r (v : ColorSetRead) : List Nat := v.d.data.take 32

/-- Getter `g`: returns `&data[32..96]`. -/
def ColorSetRead.g (v : ColorSetRead) : List Nat := (v.d.data.drop 32).take 64

/-- Getter `b`: returns `&data[96..128]`. -/
def ColorSetRead.b (v : ColorSetRead) : List Nat := v.d.data.drop 96

/-- Setter `r`: zips `data[0..32]` with the input through the `& 0x3F` mask. -/
def ColorSetWrite.r (v : ColorSetWrite) (w : List Nat) : ColorSetWrite :=
  ⟨⟨zipMask (v.d.data.take 32) w ++ v.d.data.drop 32⟩⟩

/-- Setter `g`: zips `data[32..96]` with the input through the `& 0x3F` mask. -/
def ColorSetWrite.g (v : ColorSetWrite) (w : List Nat) : ColorSetWrite :=
  ⟨⟨v.d.data.take 32 ++ zipMask ((v.d.data.drop 32).take 64) w ++ v.d.data.drop 96⟩⟩

/-- Setter `b`: zips `data[96..128]` with the input through the `& 0x3F` mask. -/
def ColorSetWrite.b (v : ColorSetWrite) (w : List Nat) : ColorSetWrite :=
  ⟨⟨v.d.data.take 96 ++ zipMask (v.d.data.drop 96) w⟩⟩

end color

namespace blanking_porch_control

/-- Parameter block `BlankingPorchControl { data: [u8; 4] }`. -/
structure BlankingPorchControl where
  b0 : Nat
  b1 : Nat
  b2 : Nat
  b3 : Nat
  deriving DecidableEq

/-- Source `Default`: `data: [0x02, 0x02, 0x0A, 0x14]`. -/
def BlankingPorchControl.default : BlankingPorchControl := ⟨0x02, 0x02, 0x0A, 0x14⟩

/-- Borrowed read view over a `BlankingPorchControl` block. -/
structure BlankingPorchControlRead where
  d : BlankingPorchControl

/-- Borrowed write view over a `BlankingPorchControl` block. -/
structure BlankingPorchControlWrite where
  d : BlankingPorchControl

/-- Source `BlankingPorchControl::read`. -/
def BlankingPorchControl.read (d : BlankingPorchControl) : BlankingPorchControlRead :=
  ⟨d⟩

/-- Getter `vfp`: `(((data[0] & 0x7F) - 2) as u8) + 2`, with the debug-build
underflow/overflow of `-`/`+` modelled as `none`. -/
def BlankingPorchControlRead.vfp (r : BlankingPorchControlRead) : Option Nat :=
  (subU8 (r.d.b0 &&& 0x7F) 2).bind fun t => addU8 t 2

/-- Getter `vbp`: `(((data[1] & 0x7F) - 2) as u8) + 2`. -/
def BlankingPorchControlRead.vbp (r : BlankingPorchControlRead) : Option Nat :=
  (subU8 (r.d.b1 &&& 0x7F) 2).bind fun t => addU8 t 2

/-- Getter `hfp`: `(((data[2] & 0x1F) - 2) as u8) + 2`. -/
def BlankingPorchControlRead.hfp (r : BlankingPorchControlRead) : Option Nat :=
  (subU8 (r.d.b2 &&& 0x1F) 2).bind fun t => addU8 t 2

/-- Getter `hbp`: `(((data[3] & 0x1F) - 2) as u8) + 2`. -/
def BlankingPorchControlRead.hbp (r : BlankingPorchControlRead) : Option Nat :=
  (subU8 (r.d.b3 &&& 0x1F) 2).bind fun t => addU8 t 2

/-- Setter `vfp`: `let w = ((w - 2) as u8) + 2; data[0] &= !(0x7F);
data[0] |= w & 0x7F` — checked `-`/`+` modelled as `none` on panic. -/
def BlankingPorchControlWrite.vfp (v : BlankingPorchControlWrite) (w : Nat) :
    Option BlankingPorchControlWrite :=
  (subU8 w 2).bind fun t => (addU8 t 2).map fun w2 =>
    ⟨{ v.d with b0 := (v.d.b0 &&& not8 0x7F) ||| (w2 &&& 0x7F) }⟩

/-- Setter `vbp`: same shape on `data[1]`, mask 0x7F. -/
def BlankingPorchControlWrite.vbp (v : BlankingPorchControlWrite) (w : Nat) :
    Option BlankingPorchControlWrite :=
  (subU8 w 2).bind fun t => (addU8 t 2).map fun w2 =>
    ⟨{ v.d with b1 := (v.d.b1 &&& not8 0x7F) ||| (w2 &&& 0x7F) }⟩

/-- Setter `hfp`: same shape on `data[2]`, mask 0x1F. -/
def BlankingPorchControlWrite.hfp (v : BlankingPorchControlWrite) (w : Nat) :
    Option BlankingPorchControlWrite :=
  (subU8 w 2).bind fun t => (addU8 t 2).map fun w2 =>
    ⟨{ v.d with b2 := (v.d.b2 &&& not8 0x1F) ||| (w2 &&& 0x1F) }⟩

/-- Setter `hbp`: same shape on `data[3]`, mask 0x1F. -/
def BlankingPorchControlWrite.hbp (v : BlankingPorchControlWrite) (w : Nat) :
    Option BlankingPorchControlWrite :=
  (subU8 w 2).bind fun t => (addU8 t 2).map fun w2 =>
    ⟨{ v.d with b3 := (v.d.b3 &&& not8 0x1F) ||| (w2 &&& 0x1F) }⟩

end blanking_porch_control

namespace vcom_control2

/-- Parameter block `VcomControl2 { data: [u8; 1] }`. -/
structure VcomControl2 where
  b0 : Nat
  deriving DecidableEq

/-- Source `Default`: `data: [0xC0]`. -/
def VcomControl2.default : VcomControl2 := ⟨0xC0⟩

/-- Borrowed read view over a `VcomControl2` block. -/
structure VcomControl2Read where
  d : VcomControl2

/-- Borrowed write view over a `VcomControl2` block. -/
structure VcomControl2Write where
  d : VcomControl2

/-- Source `VcomControl2::read`. -/
def VcomControl2.read (d : VcomControl2) : VcomControl2Read := ⟨d⟩

/-- Getter `vcom_setting_source`: `((data[0] >> 7) & 0x01) != 0`. -/
def VcomControl2Read.vcom_setting_source (r : VcomControl2Read) : Bool :=
  ((r.d.b0 >>> 7) &&& 0x01) != 0

/-- Getter `vcomh`: `(((data[0] & 0x7F) - 1) as i8) + -63`, with the
debug-build underflow of the `u8` subtraction and the checked `i8`
addition modelled as `none`. -/
def VcomControl2Read.vcomh (r : VcomControl2Read) : Option Int :=
  (subU8 (r.d.b0 &&& 0x7F) 1).bind fun t => addI8 (u8ToI8 t) (-63)

/-- Setter `vcomh`: `let w = ((w - -63) as u8) + 1; data[0] &= !(0x7F);
data[0] |= w & 0x7F` — checked `i8` subtraction and `u8` addition. -/
def VcomControl2Write.vcomh (v : VcomControl2Write) (w : Int) :
    Option VcomControl2Write :=
  (subI8 w (-63)).bind fun t => (addU8 (i8ToU8 t) 1).map fun w2 =>
    ⟨⟨(v.d.b0 &&& not8 0x7F) ||| (w2 &&& 0x7F)⟩⟩

end vcom_control2

namespace nv_memory_write

/-- Source enum `ProgrammedNvMemorySelection`, sparse codes 0x00/0x01/0x02/0x04. -/
inductive ProgrammedNvMemorySelection
  | Id1Programming
  | Id2Programming
  | Id3Programming
  | Vmf60Programming
  deriving DecidableEq, Fintype

/-- Rust `w as u8` on a `ProgrammedNvMemorySelection` variant. -/
def ProgrammedNvMemorySelection.code : ProgrammedNvMemorySelection → Nat
  | .Id1Programming => 0x00
  | .Id2Programming => 0x01
  | .Id3Programming => 0x02
  | .Vmf60Programming => 0x04

/-- Source `impl From<u8> for ProgrammedNvMemorySelection`; the `panic!`
arm for every undocumented code (0x03, 0x05, ...) is `none`. -/
def ProgrammedNvMemorySelection.fromCode : Nat → Option ProgrammedNvMemorySelection
  | 0x00 => some .Id1Programming
  | 0x01 => some .Id2Programming
  | 0x02 => some .Id3Programming
  | 0x04 => some .Vmf60Programming
  | _ => none

/-- Parameter block `NvMemory { data: [u8; 2] }`. -/
structure NvMemory where
  b0 : Nat
  b1 : Nat
  deriving DecidableEq

/-- Source `Default`: `data: [0x00, 0x00]`. -/
def NvMemory.default : NvMemory := ⟨0x00, 0x00⟩

/-- Borrowed read view over an `NvMemory` block. -/
structure NvMemoryRead where
  d : NvMemory

/-- Borrowed write view over an `NvMemory` block. -/
structure NvMemoryWrite where
  d : NvMemory

/-- Source `NvMemory::read`. -/
def NvMemory.read (d : NvMemory) : NvMemoryRead := ⟨d⟩

/-- Source `NvMemory::write`: applies the builder closure. -/
def NvMemory.write (d : NvMemory) (f : NvMemoryWrite → NvMemoryWrite) : NvMemory :=
  (f ⟨d⟩).d

/-- Getter `programmed_nv_memory_selection`:
`ProgrammedNvMemorySelection::from(data[0] & 0x07)`. -/
def NvMemoryRead.programmed_nv_memory_selection (r : NvMemoryRead) :
    Option ProgrammedNvMemorySelection :=
  ProgrammedNvMemorySelection.fromCode (r.d.b0 &&& 0x07)

/-- Setter `programmed_nv_memory_selection`:
`data[0] &= !(0x07); data[0] |= w & 0x07`. -/
def NvMemoryWrite.programmed_nv_memory_selection (w : NvMemoryWrite)
    (v : ProgrammedNvMemorySelection) : NvMemoryWrite :=
  ⟨{ w.d with b0 := (w.d.b0 &&& not8 0x07) ||| (v.code &&& 0x07) }⟩

end nv_memory_write

namespace nv_memory_protection_key

/-- Parameter block `NvMemoryProtectionKey { data: [u8; 3] }`. -/
structure NvMemoryProtectionKey where
  b0 : Nat
  b1 : Nat
  b2 : Nat
  deriving DecidableEq

/-- Source `Default`: `data: [0x55, 0xAA, 0x66]`. -/
def NvMemoryProtectionKey.default : NvMemoryProtectionKey := ⟨0x55, 0xAA, 0x66⟩

/-- Borrowed read view over an `NvMemoryProtectionKey` block. -/
structure NvMemoryProtectionKeyRead where
  d : NvMemoryProtectionKey

/-- Borrowed write view over an `NvMemoryProtectionKey` block. -/
structure NvMemoryProtectionKeyWrite where
  d : NvMemoryProtectionKey

/-- Source `NvMemoryProtectionKey::read`. -/
def NvMemoryProtectionKey.read (d : NvMemoryProtectionKey) :
    NvMemoryProtectionKeyRead := ⟨d⟩

/-- Source `NvMemoryProtectionKey::write`: applies the builder closure. -/
def NvMemoryProtectionKey.write (d : NvMemoryProtectionKey)
    (f : NvMemoryProtectionKeyWrite → NvMemoryProtectionKeyWrite) :
    NvMemoryProtectionKey :=
  (f ⟨d⟩).d

/-- Getter `nv_memory_programming_protection_key`:
`((data[0] as u32) << 16) | ((data[1] as u32) << 8) | (data[2] as u32)`. -/
def NvMemoryProtectionKeyRead.nv_memory_programming_protection_key
    (r : NvMemoryProtectionKeyRead) : Nat :=
  ((r.d.b0 <<< 16) ||| (r.d.b1 <<< 8)) ||| r.d.b2

/-- Setter `nv_memory_programming_protection_key`:
`data[0] = (w >> 16) as u8; data[1] = (w >> 8) as u8; data[2] = w as u8`. -/
def NvMemoryProtectionKeyWrite.nv_memory_programming_protection_key
    (w : NvMemoryProtectionKeyWrite) (v : Nat) : NvMemoryProtectionKeyWrite :=
  ⟨⟨toU8 (v >>> 16), toU8 (v >>> 8), toU8 v⟩⟩

end nv_memory_protection_key

/-- The Transport contract (`trait Interface`): the three bus operations,
each failing with a transport-defined error `ε`.  `readParameters` returns
the bytes it stored into the caller's buffer (the Rust version fills the
mutable buffer passed in). -/
structure Interface (ε : Type) where
  command : Nat → Except ε Unit
  sendParameters : Nat → List Nat → Except ε Unit
  readParameters : Nat → List Nat → Except ε (List Nat)

/-- `Controller<Iface>`: owns one transport instance. -/
structure Controller (ε : Type) where
  iface : Interface ε

/-- Source `Controller::software_reset`: `self.command(0x01)`. -/
def Controller.software_reset (c : Controller ε) : Except ε Unit :=
  c.iface.command 0x01

/-- Source `Controller::gamma_set`:
`self.send_parameters(0x26, &gamma::GammaSet::default().write(f).data)`. -/
def Controller.gamma_set (c : Controller ε)
    (f : gamma.GammaSetWrite → gamma.GammaSetWrite) : Except ε Unit :=
  c.iface.sendParameters 0x26 ((gamma.GammaSet.default.write f).bytes)

/-- Source `Controller::column_address_set`:
`self.send_parameters(0x2A, &column_address::ColumnAddressSet::default().write(f).data)`. -/
def Controller.column_address_set (c : Controller ε)
    (f : column_address.ColumnAddressSetWrite → column_address.ColumnAddressSetWrite) :
    Except ε Unit :=
  c.iface.sendParameters 0x2A ((column_address.ColumnAddressSet.default.write f).bytes)

/-- Source `Controller::read_display_power_mode`: build the default block,
call `read_parameters(0x0A, &mut r.data)?`, return the populated block. -/
def Controller.read_display_power_mode (c : Controller ε) :
    Except ε read_display_power_mode.DisplayPowerMode :=
  match c.iface.readParameters 0x0A
      read_display_power_mode.DisplayPowerMode.default.bytes with
  | .error e => .error e
  | .ok d => .ok (read_display_power_mode.DisplayPowerMode.ofBytes d)

/-- Source `Controller::read_display_identification_information`: build the
default block, call `read_parameters(0x04, &mut r.data)?`, return it. -/
def Controller.read_display_identification_information (c : Controller ε) :
    Except ε read_display_identification_information.DisplayIdentificationInformation :=
  match c.iface.readParameters 0x04
      read_display_identification_information.DisplayIdentificationInformation.default.bytes with
  | .error e => .error e
  | .ok d =>
    .ok (read_display_identification_information.DisplayIdentificationInformation.ofBytes d)

/-- A transport stub whose every operation fails with error code 7; used to
exercise the error-propagation path on a concrete input. -/
def failingIface : Interface Nat :=
  ⟨fun _ => .error 7, fun _ _ => .error 7, fun _ _ => .error 7⟩

/-- A Controller owning the failing transport stub. -/
def failingController : Controller Nat := ⟨failingIface⟩

/-! ## General lemmas about the embedded machine arithmetic -/

/-- Clearing with a mask disjoint from `m` and OR-ing in bits inside `m`
leaves exactly those bits inside `m`. -/
theorem mask_merge (x y c m : Nat) (h : c &&& m = 0) :
    ((x &&& c) ||| (y &&& m)) &&& m = y &&& m := by
  rw [Nat.and_distrib_right, Nat.land_assoc, h, Nat.and_zero, Nat.zero_or,
    Nat.land_assoc, Nat.and_self]

/-- A byte-aligned OR of a shifted high part and a small low part is addition. -/
theorem lor_hi (a b n : Nat) (h : b < 2 ^ n) : (a <<< n) ||| b = a * 2 ^ n + b := by
  rw [Nat.shiftLeft_eq, Nat.mul_comm]
  exact (Nat.mul_add_lt_is_or h a).symm

/-- Masking with 255 is reduction mod 256. -/
theorem and255_eq_mod (x : Nat) : x &&& 255 = x % 256 := by
  have h := Nat.and_pow_two_sub_one_eq_mod x 8
  norm_num at h
  exact h

/-- Splitting a 16-bit value into `(v >> 8) as u8` and `v as u8` and
reassembling `(hi << 8) | lo` is the identity. -/
theorem hiLo16 (v : Nat) (h : v < 65536) :
    ((toU8 (v >>> 8)) <<< 8) ||| toU8 v = v := by
  have hlt : toU8 v < 2 ^ 8 := by
    unfold toU8; rw [and255_eq_mod]; omega
  rw [lor_hi _ _ 8 hlt]
  unfold toU8
  rw [and255_eq_mod, and255_eq_mod, Nat.shiftRight_eq_div_pow]
  norm_num
  omega

/-- Splitting a 24-bit value into three bytes and reassembling
`((b0 << 16) | (b1 << 8)) | b2` is the identity. -/
theorem hiLo24 (v : Nat) (h : v < 16777216) :
    ((toU8 (v >>> 16) <<< 16) ||| (toU8 (v >>> 8) <<< 8)) ||| toU8 v = v := by
  have h2 : toU8 v < 2 ^ 8 := by
    unfold toU8; rw [and255_eq_mod]; omega
  have h1 : (toU8 (v >>> 8) <<< 8) ||| toU8 v = toU8 (v >>> 8) * 2 ^ 8 + toU8 v :=
    lor_hi _ _ 8 h2
  have h1lt : toU8 (v >>> 8) * 2 ^ 8 + toU8 v < 2 ^ 16 := by
    have : toU8 (v >>> 8) < 2 ^ 8 := by
      unfold toU8; rw [and255_eq_mod]; omega
    omega
  rw [Nat.lor_assoc, h1, lor_hi _ _ 16 h1lt]
  unfold toU8
  rw [and255_eq_mod, and255_eq_mod, and255_eq_mod, Nat.shiftRight_eq_div_pow,
    Nat.shiftRight_eq_div_pow]
  norm_num
  omega

/-- Zipping with a function that ignores its first argument is a map of the
second list, when the second list is no longer than the first. -/
theorem zipWith_second (f : Nat → Nat) :
    ∀ s w : List Nat, w.length ≤ s.length →
      List.zipWith (fun _x y => f y) s w = w.map f
  | _, [], _ => by simp
  | [], _ :: _, h => by simp at h
  | _ :: s, b :: w, h => by
    simp only [List.zipWith, List.map]
    rw [zipWith_second f s w (by simpa using h)]

/-! ## Claim theorems -/

/-- C7: the default `ColumnAddressSet` block decodes to `sc = 0x0000` and
`ec = 0x00EF`, and after `write(|w| w.sc(0x0010).ec(0x00EF))` on a default
block, decoding yields `sc = 16`. -/
theorem claim_C7_column_address_scenario :
    (column_address.ColumnAddressSet.default.read).sc = 0x0000 ∧
    (column_address.ColumnAddressSet.default.read).ec = 0x00EF ∧
    ((column_address.ColumnAddressSet.default.write fun w =>
        (w.sc 0x0010).ec 0x00EF).read).sc = 16 := by
  decide

/-- C3 counterexample: the default `VcomControl2` wire byte is `0xC0`, but
the read view decodes `vcomh = 0` from it, not `-63`: the source computes
`(((0xC0 & 0x7F) - 1) as i8) + -63 = (64 - 1) - 63 = 0`. -/
theorem claim_C3_counterexample :
    (vcom_control2.VcomControl2.default.read).vcomh ≠ some (-63) := by
  decide

/-- C3 amended: the default `VcomControl2` block has wire byte `0xC0` and
its read view decodes `vcomh = 0` from that byte; writing `vcomh = 0` into
the default block produces exactly the wire byte
`0xC0 & !0x7F | ((0 - (-63) + 1) & 0x7F)` (that is, `0xC0` again), so the
write-view encode and the read-view decode agree on the bias arithmetic. -/
theorem claim_C3_amended :
    vcom_control2.VcomControl2.default.b0 = 0xC0 ∧
    (vcom_control2.VcomControl2.default.read).vcomh = some 0 ∧
    (vcom_control2.VcomControl2Write.vcomh ⟨vcom_control2.VcomControl2.default⟩ 0).map
        (fun w => w.d.b0)
      = some ((0xC0 &&& not8 0x7F) |||
          ((((0 : Int) - (-63) + 1).toNat) &&& 0x7F)) ∧
    (vcom_control2.VcomControl2Write.vcomh ⟨vcom_control2.VcomControl2.default⟩ 0).map
        (fun w => w.d.b0)
      = some 0xC0 := by
  decide

/-- C10: the `VcomControl2` read-view `vcomh` accessor is not total: for
every buffer byte `b < 256` with `b & 0x7F == 0` the `u8` subtraction
`(b & 0x7F) - 1` underflows (a panic in debug builds, modelled `none`),
and for every byte whose low 7 bits are nonzero the decode succeeds. -/
theorem claim_C10_vcomh_partial_accessor :
    ∀ b < 256,
      (b &&& 0x7F = 0 → vcom_control2.VcomControl2Read.vcomh ⟨⟨b⟩⟩ = none) ∧
      (b &&& 0x7F ≠ 0 → (vcom_control2.VcomControl2Read.vcomh ⟨⟨b⟩⟩).isSome = true) := by
  decide

/-- Witness for C10 at the concrete wire bytes 0x80 (low 7 bits zero,
decode panics) taken from the claim itself. -/
theorem claim_C10_witness :
    vcom_control2.VcomControl2Read.vcomh ⟨⟨0x80⟩⟩ = none :=
  (claim_C10_vcomh_partial_accessor 0x80 (by decide)).1 (by decide)

/-- Modelled from the spec: the claimed biased-field encode rule — "write
computes `wire = value - bias` before masking" — instantiated for the `vfp`
porch counter, whose documented bias is 2 and whose wire mask is `0x7F`. -/
def vfpWireSpec (v : Nat) : Nat := (v - 2) &&& 0x7F

/-- C4 counterexample: writing `vfp = 5` into the default
`BlankingPorchControl` block stores wire code 5 in the field, not the
`value - bias = 3` that the claimed encode rule would produce: the source
computes `((w - 2) as u8) + 2`, so the bias subtraction cancels before
masking. -/
theorem claim_C4_counterexample :
    (blanking_porch_control.BlankingPorchControlWrite.vfp
        ⟨blanking_porch_control.BlankingPorchControl.default⟩ 5).map
      (fun v => v.d.b0 &&& 0x7F) ≠ some (vfpWireSpec 5) := by
  decide

/-- C6 counterexample: supplying a 1-byte input (length ≠ 32) to the `r`
setter of `ColorSet` is not reported as an error: the write silently
truncates at the shorter length, masking the single byte into `data[0]`
and leaving the other 127 bytes unchanged. -/
theorem claim_C6_counterexample :
    (color.ColorSet.write color.ColorSet.default fun u => u.r [0x7F]).data
      = 63 :: List.replicate 127 0 := by
  decide

/-- C8: every Controller write command sends the opcode plus the default
block transformed by the caller's builder closure through the transport's
`send_parameters`; in particular a `GammaSet` write with the single
documented curve variant encodes parameter byte `0x01`, and issuing it
calls the transport with opcode `0x26` and payload `[0x01]`. -/
theorem claim_C8_write_dispatch :
    (∀ (ε : Type) (c : Controller ε) (f : gamma.GammaSetWrite → gamma.GammaSetWrite),
       c.gamma_set f
         = c.iface.sendParameters 0x26 ((gamma.GammaSet.default.write f).bytes)) ∧
    (∀ (ε : Type) (c : Controller ε)
       (f : column_address.ColumnAddressSetWrite → column_address.ColumnAddressSetWrite),
       c.column_address_set f
         = c.iface.sendParameters 0x2A
             ((column_address.ColumnAddressSet.default.write f).bytes)) ∧
    ((gamma.GammaSet.default.write fun w =>
        w.curve_selected .GammaCurve1G2o2).bytes = [0x01]) ∧
    (∀ (ε : Type) (c : Controller ε),
       c.gamma_set (fun w => w.curve_selected .GammaCurve1G2o2)
         = c.iface.sendParameters 0x26 [0x01]) :=
  ⟨fun _ _ _ => rfl, fun _ _ _ => rfl, rfl, fun _ _ => rfl⟩

/-- C9: a transport error `e` returned by the underlying `Interface`
operation (`command`, `send_parameters` or `read_parameters`) is returned
unchanged as the Controller method's own result, with no wrapping and no
typed result block. -/
theorem claim_C9_error_propagation :
    (∀ (ε : Type) (c : Controller ε) (e : ε),
       c.iface.command 0x01 = .error e → c.software_reset = .error e) ∧
    (∀ (ε : Type) (c : Controller ε)
       (f : gamma.GammaSetWrite → gamma.GammaSetWrite) (e : ε),
       c.iface.sendParameters 0x26 ((gamma.GammaSet.default.write f).bytes)
           = .error e →
       c.gamma_set f = .error e) ∧
    (∀ (ε : Type) (c : Controller ε) (e : ε),
       c.iface.readParameters 0x0A
           read_display_power_mode.DisplayPowerMode.default.bytes = .error e →
       c.read_display_power_mode = .error e) ∧
    (∀ (ε : Type) (c : Controller ε) (e : ε),
       c.iface.readParameters 0x04
           read_display_identification_information.DisplayIdentificationInformation.default.bytes
           = .error e →
       c.read_display_identification_information = .error e) := by
  refine ⟨fun ε c e h => h, fun ε c f e h => h,
    fun ε c e h => ?_, fun ε c e h => ?_⟩
  · unfold Controller.read_display_power_mode
    rw [h]
  · unfold Controller.read_display_identification_information
    rw [h]

/-- Witness for C9: a concrete transport stub failing with error code 7
propagates that exact code through a command-, a write- and a read-shaped
Controller method. -/
theorem claim_C9_witness :
    failingController.software_reset = .error 7 ∧
    failingController.gamma_set (fun w => w.curve_selected .GammaCurve1G2o2)
      = .error 7 ∧
    failingController.read_display_power_mode = .error 7 :=
  ⟨claim_C9_error_propagation.1 Nat failingController 7 rfl,
   claim_C9_error_propagation.2.1 Nat failingController _ 7 rfl,
   claim_C9_error_propagation.2.2.1 Nat failingController 7 rfl⟩

open read_display_power_mode column_address page_address gamma color
  blanking_porch_control vcom_control2 nv_memory_write nv_memory_protection_key

/-- Round-trip and bit isolation for the `booster` field (bit 7). -/
theorem booster_bit_roundtrip :
    ∀ b < 256, ∀ v : Booster,
      ((DisplayPowerMode.write ⟨b⟩ fun w => w.booster v).read).booster = some v ∧
      (DisplayPowerMode.write ⟨b⟩ fun w => w.booster v).b0 < 256 ∧
      ∀ i < 8, i ≠ 7 →
        ((DisplayPowerMode.write ⟨b⟩ fun w => w.booster v).b0).testBit i
          = Nat.testBit b i := by
  decide

/-- Round-trip and bit isolation for the `idle_mode` field (bit 6). -/
theorem idle_mode_bit_roundtrip :
    ∀ b < 256, ∀ v : IdleMode,
      ((DisplayPowerMode.write ⟨b⟩ fun w => w.idle_mode v).read).idle_mode = some v ∧
      (DisplayPowerMode.write ⟨b⟩ fun w => w.idle_mode v).b0 < 256 ∧
      ∀ i < 8, i ≠ 6 →
        ((DisplayPowerMode.write ⟨b⟩ fun w => w.idle_mode v).b0).testBit i
          = Nat.testBit b i := by
  decide

/-- Round-trip and bit isolation for the `partial_mode` field (bit 5). -/
theorem partial_mode_bit_roundtrip :
    ∀ b < 256, ∀ v : PartialMode,
      ((DisplayPowerMode.write ⟨b⟩ fun w => w.partial_mode v).read).partial_mode
          = some v ∧
      (DisplayPowerMode.write ⟨b⟩ fun w => w.partial_mode v).b0 < 256 ∧
      ∀ i < 8, i ≠ 5 →
        ((DisplayPowerMode.write ⟨b⟩ fun w => w.partial_mode v).b0).testBit i
          = Nat.testBit b i := by
  decide

/-- Round-trip and bit isolation for the `sleep` field (bit 4). -/
theorem sleep_bit_roundtrip :
    ∀ b < 256, ∀ v : Sleep,
      ((DisplayPowerMode.write ⟨b⟩ fun w => w.sleep v).read).sleep = some v ∧
      (DisplayPowerMode.write ⟨b⟩ fun w => w.sleep v).b0 < 256 ∧
      ∀ i < 8, i ≠ 4 →
        ((DisplayPowerMode.write ⟨b⟩ fun w => w.sleep v).b0).testBit i
          = Nat.testBit b i := by
  decide

/-- Round-trip and bit isolation for the `display_normal_mode` field (bit 3). -/
theorem display_normal_mode_bit_roundtrip :
    ∀ b < 256, ∀ v : DisplayNormalMode,
      ((DisplayPowerMode.write ⟨b⟩ fun w =>
          w.display_normal_mode v).read).display_normal_mode = some v ∧
      (DisplayPowerMode.write ⟨b⟩ fun w => w.display_normal_mode v).b0 < 256 ∧
      ∀ i < 8, i ≠ 3 →
        ((DisplayPowerMode.write ⟨b⟩ fun w => w.display_normal_mode v).b0).testBit i
          = Nat.testBit b i := by
  decide

/-- Round-trip and bit isolation for the `display_is` field (bit 2). -/
theorem display_is_bit_roundtrip :
    ∀ b < 256, ∀ v : DisplayIs,
      ((DisplayPowerMode.write ⟨b⟩ fun w => w.display_is v).read).display_is
          = some v ∧
      (DisplayPowerMode.write ⟨b⟩ fun w => w.display_is v).b0 < 256 ∧
      ∀ i < 8, i ≠ 2 →
        ((DisplayPowerMode.write ⟨b⟩ fun w => w.display_is v).b0).testBit i
          = Nat.testBit b i := by
  decide

/-- C1: for the six 1-bit fields of `DisplayPowerMode` (bits 7 down to 2)
and the 16-bit `sc`/`ec` fields of `ColumnAddressSet`: over every starting
buffer state, writing any representable field value and reading it back
yields exactly that value, and no bit of the buffer outside the field's
bit-run differs from its pre-write value. -/
theorem claim_C1_roundtrip_isolation :
    (∀ b < 256,
      (∀ v : Booster,
        ((DisplayPowerMode.write ⟨b⟩ fun w => w.booster v).read).booster = some v ∧
        (DisplayPowerMode.write ⟨b⟩ fun w => w.booster v).b0 < 256 ∧
        ∀ i < 8, i ≠ 7 →
          ((DisplayPowerMode.write ⟨b⟩ fun w => w.booster v).b0).testBit i
            = Nat.testBit b i) ∧
      (∀ v : IdleMode,
        ((DisplayPowerMode.write ⟨b⟩ fun w => w.idle_mode v).read).idle_mode = some v ∧
        (DisplayPowerMode.write ⟨b⟩ fun w => w.idle_mode v).b0 < 256 ∧
        ∀ i < 8, i ≠ 6 →
          ((DisplayPowerMode.write ⟨b⟩ fun w => w.idle_mode v).b0).testBit i
            = Nat.testBit b i) ∧
      (∀ v : PartialMode,
        ((DisplayPowerMode.write ⟨b⟩ fun w => w.partial_mode v).read).partial_mode
            = some v ∧
        (DisplayPowerMode.write ⟨b⟩ fun w => w.partial_mode v).b0 < 256 ∧
        ∀ i < 8, i ≠ 5 →
          ((DisplayPowerMode.write ⟨b⟩ fun w => w.partial_mode v).b0).testBit i
            = Nat.testBit b i) ∧
      (∀ v : Sleep,
        ((DisplayPowerMode.write ⟨b⟩ fun w => w.sleep v).read).sleep = some v ∧
        (DisplayPowerMode.write ⟨b⟩ fun w => w.sleep v).b0 < 256 ∧
        ∀ i < 8, i ≠ 4 →
          ((DisplayPowerMode.write ⟨b⟩ fun w => w.sleep v).b0).testBit i
            = Nat.testBit b i) ∧
      (∀ v : DisplayNormalMode,
        ((DisplayPowerMode.write ⟨b⟩ fun w =>
            w.display_normal_mode v).read).display_normal_mode = some v ∧
        (DisplayPowerMode.write ⟨b⟩ fun w => w.display_normal_mode v).b0 < 256 ∧
        ∀ i < 8, i ≠ 3 →
          ((DisplayPowerMode.write ⟨b⟩ fun w => w.display_normal_mode v).b0).testBit i
            = Nat.testBit b i) ∧
      (∀ v : DisplayIs,
        ((DisplayPowerMode.write ⟨b⟩ fun w => w.display_is v).read).display_is
            = some v ∧
        (DisplayPowerMode.write ⟨b⟩ fun w => w.display_is v).b0 < 256 ∧
        ∀ i < 8, i ≠ 2 →
          ((DisplayPowerMode.write ⟨b⟩ fun w => w.display_is v).b0).testBit i
            = Nat.testBit b i)) ∧
    (∀ d : ColumnAddressSet, ∀ v < 65536,
      ((d.write fun w => w.sc v).read).sc = v ∧
      (d.write fun w => w.sc v).b2 = d.b2 ∧
      (d.write fun w => w.sc v).b3 = d.b3) ∧
    (∀ d : ColumnAddressSet, ∀ v < 65536,
      ((d.write fun w => w.ec v).read).ec = v ∧
      (d.write fun w => w.ec v).b0 = d.b0 ∧
      (d.write fun w => w.ec v).b1 = d.b1) := by
  refine ⟨fun b hb => ⟨booster_bit_roundtrip b hb, idle_mode_bit_roundtrip b hb,
      partial_mode_bit_roundtrip b hb, sleep_bit_roundtrip b hb,
      display_normal_mode_bit_roundtrip b hb, display_is_bit_roundtrip b hb⟩,
    fun d v hv => ⟨hiLo16 v hv, rfl, rfl⟩,
    fun d v hv => ⟨hiLo16 v hv, rfl, rfl⟩⟩

/-- Witness for C1: the `sleep` bit round-trips through the concrete
buffer byte 0x9C, and `sc = 0x1234` round-trips through the default
`ColumnAddressSet` block. -/
theorem claim_C1_witness :
    ((DisplayPowerMode.write ⟨0x9C⟩ fun w => w.sleep .SleepOutMode).read).sleep
      = some .SleepOutMode ∧
    ((ColumnAddressSet.default.write fun w => w.sc 0x1234).read).sc = 0x1234 :=
  ⟨((claim_C1_roundtrip_isolation.1 0x9C (by decide)).2.2.2.1 .SleepOutMode).1,
   (claim_C1_roundtrip_isolation.2.1 ColumnAddressSet.default 0x1234 (by decide)).1⟩

/-- Byte-level round-trip for the `programmed_nv_memory_selection` field:
write clears bits 0-2, ORs in the variant code, and decoding the masked
bits recovers the variant, for every starting byte. -/
theorem pnms_byte_roundtrip :
    ∀ b < 256, ∀ v : ProgrammedNvMemorySelection,
      ProgrammedNvMemorySelection.fromCode
        (((b &&& not8 0x07) ||| (v.code &&& 0x07)) &&& 0x07) = some v := by
  decide

/-- C2: writing each documented variant of an enumeration field and
reading it back yields the same variant, and decoding a code outside the
documented set is an error (`none`, the source's `panic!` arm), never a
silent mapping to a variant — shown for the sparse
`ProgrammedNvMemorySelection` field (codes 0,1,2,4) and the single-variant
`CurveSelected` field (code 1). -/
theorem claim_C2_enum_fields :
    (∀ b0 < 256, ∀ b1 < 256, ∀ v : ProgrammedNvMemorySelection,
      ((NvMemory.write ⟨b0, b1⟩ fun w =>
          w.programmed_nv_memory_selection v).read).programmed_nv_memory_selection
        = some v) ∧
    (∀ c < 256, c ∉ ([0x00, 0x01, 0x02, 0x04] : List Nat) →
      ProgrammedNvMemorySelection.fromCode c = none) ∧
    (∀ b0 < 256, ∀ v : CurveSelected,
      ((GammaSet.write ⟨b0⟩ fun w => w.curve_selected v).read).curve_selected
        = some v) ∧
    (∀ c < 256, c ∉ ([0x01] : List Nat) → CurveSelected.fromCode c = none) := by
  refine ⟨fun b0 hb0 b1 hb1 v => pnms_byte_roundtrip b0 hb0 v, by decide,
    by decide, by decide⟩

/-- Witness for C2: the sparse variant `Vmf60Programming` (code 4)
round-trips through the concrete buffer `[0xAB, 0xCD]`, and the
undocumented code 3 decodes to an error. -/
theorem claim_C2_witness :
    ((NvMemory.write ⟨0xAB, 0xCD⟩ fun w =>
        w.programmed_nv_memory_selection .Vmf60Programming).read).programmed_nv_memory_selection
      = some .Vmf60Programming ∧
    ProgrammedNvMemorySelection.fromCode 0x03 = none :=
  ⟨claim_C2_enum_fields.1 0xAB (by decide) 0xCD (by decide) .Vmf60Programming,
   claim_C2_enum_fields.2.1 0x03 (by decide) (by decide)⟩

/-- C5: the 16-bit `sc`/`ec` and `sp`/`ep` counters and the 24-bit NV
protection key round-trip exactly for every representable value, and the
bytes are stored most-significant-first at the lower buffer index: write
puts `(value >> 8) as u8` in the field's first byte and the truncated
value in its second byte, extended to three bytes for the 24-bit key. -/
theorem claim_C5_multibyte_counters :
    (∀ d : ColumnAddressSet, ∀ v < 65536,
      ((d.write fun w => w.sc v).read).sc = v ∧
      (d.write fun w => w.sc v).b0 = toU8 (v >>> 8) ∧
      (d.write fun w => w.sc v).b1 = toU8 v) ∧
    (∀ d : ColumnAddressSet, ∀ v < 65536,
      ((d.write fun w => w.ec v).read).ec = v ∧
      (d.write fun w => w.ec v).b2 = toU8 (v >>> 8) ∧
      (d.write fun w => w.ec v).b3 = toU8 v) ∧
    (∀ d : PageAddressSet, ∀ v < 65536,
      ((d.write fun w => w.sp v).read).sp = v ∧
      (d.write fun w => w.sp v).b0 = toU8 (v >>> 8) ∧
      (d.write fun w => w.sp v).b1 = toU8 v) ∧
    (∀ d : PageAddressSet, ∀ v < 65536,
      ((d.write fun w => w.ep v).read).ep = v ∧
      (d.write fun w => w.ep v).b2 = toU8 (v >>> 8) ∧
      (d.write fun w => w.ep v).b3 = toU8 v) ∧
    (∀ d : NvMemoryProtectionKey, ∀ v < 16777216,
      ((d.write fun w =>
          w.nv_memory_programming_protection_key v).read).nv_memory_programming_protection_key
        = v ∧
      (d.write fun w => w.nv_memory_programming_protection_key v).b0
        = toU8 (v >>> 16) ∧
      (d.write fun w => w.nv_memory_programming_protection_key v).b1
        = toU8 (v >>> 8) ∧
      (d.write fun w => w.nv_memory_programming_protection_key v).b2 = toU8 v) :=
  ⟨fun d v hv => ⟨hiLo16 v hv, rfl, rfl⟩,
   fun d v hv => ⟨hiLo16 v hv, rfl, rfl⟩,
   fun d v hv => ⟨hiLo16 v hv, rfl, rfl⟩,
   fun d v hv => ⟨hiLo16 v hv, rfl, rfl⟩,
   fun d v hv => ⟨hiLo24 v hv, rfl, rfl, rfl⟩⟩

/-- Witness for C5: `ec = 0xABCD` and the 24-bit key `0x5AA566` round-trip
through the default blocks. -/
theorem claim_C5_witness :
    ((ColumnAddressSet.default.write fun w => w.ec 0xABCD).read).ec = 0xABCD ∧
    ((NvMemoryProtectionKey.default.write fun w =>
        w.nv_memory_programming_protection_key 0x5AA566).read).nv_memory_programming_protection_key
      = 0x5AA566 :=
  ⟨(claim_C5_multibyte_counters.2.1 ColumnAddressSet.default 0xABCD (by decide)).1,
   (claim_C5_multibyte_counters.2.2.2.2 NvMemoryProtectionKey.default 0x5AA566
      (by decide)).1⟩

/-- Decoding step shared by all four porch counters: the checked
`(y - 2) + 2` on a byte value `2 ≤ y ≤ 255` is the identity. -/
theorem porch_decode (y : Nat) (h2 : 2 ≤ y) (hle : y ≤ 255) :
    (subU8 y 2).bind (fun t => addU8 t 2) = some y := by
  have e1 : subU8 y 2 = some (y - 2) := by unfold subU8; rw [if_pos h2]
  rw [e1]
  show addU8 (y - 2) 2 = some y
  unfold addU8
  rw [if_pos (by omega)]
  congr 1
  omega

/-- C4 amended: the porch counters `vfp`/`vbp` (7-bit run) and `hfp`/`hbp`
(5-bit run) of `BlankingPorchControl` round-trip for every value in the
field's representable range above the bias (`2 ≤ v ≤ 2^w - 1`; values
below 2 underflow the debug-build subtraction), and the `vcomh` field of
`VcomControl2` round-trips for every value in `[-63, 63]`; the encode
never overflows the field's bit-run.  However, the write does not store
`value - bias`: for the porch counters the `- 2` and `+ 2` cancel, so the
stored wire code equals the value itself, and for `vcomh` the stored wire
code is `value + 64` (the `- (-63)` bias plus an extra `+ 1`). -/
theorem claim_C4_amended :
    (∀ d : BlankingPorchControl, ∀ w : Nat, 2 ≤ w → w ≤ 127 →
      (BlankingPorchControlWrite.vfp ⟨d⟩ w).bind (fun v => (v.d.read).vfp)
          = some w ∧
      (BlankingPorchControlWrite.vfp ⟨d⟩ w).map (fun v => v.d.b0 &&& 0x7F)
          = some w) ∧
    (∀ d : BlankingPorchControl, ∀ w : Nat, 2 ≤ w → w ≤ 127 →
      (BlankingPorchControlWrite.vbp ⟨d⟩ w).bind (fun v => (v.d.read).vbp)
          = some w ∧
      (BlankingPorchControlWrite.vbp ⟨d⟩ w).map (fun v => v.d.b1 &&& 0x7F)
          = some w) ∧
    (∀ d : BlankingPorchControl, ∀ w : Nat, 2 ≤ w → w ≤ 31 →
      (BlankingPorchControlWrite.hfp ⟨d⟩ w).bind (fun v => (v.d.read).hfp)
          = some w ∧
      (BlankingPorchControlWrite.hfp ⟨d⟩ w).map (fun v => v.d.b2 &&& 0x1F)
          = some w) ∧
    (∀ d : BlankingPorchControl, ∀ w : Nat, 2 ≤ w → w ≤ 31 →
      (BlankingPorchControlWrite.hbp ⟨d⟩ w).bind (fun v => (v.d.read).hbp)
          = some w ∧
      (BlankingPorchControlWrite.hbp ⟨d⟩ w).map (fun v => v.d.b3 &&& 0x1F)
          = some w) ∧
    (∀ d : VcomControl2, ∀ x : Int, -63 ≤ x → x ≤ 63 →
      (VcomControl2Write.vcomh ⟨d⟩ x).bind (fun v => (v.d.read).vcomh)
          = some x ∧
      (VcomControl2Write.vcomh ⟨d⟩ x).map (fun v => v.d.b0 &&& 0x7F)
          = some (x + 64).toNat) := by
  refine ⟨?_, ?_, ?_, ?_, ?_⟩
  · intro d w h2 hle
    have hwm : w &&& 127 = w := by
      have h := Nat.and_pow_two_sub_one_of_lt_two_pow (n := 7) (x := w) (by omega)
      norm_num at h
      exact h
    have e1 : subU8 w 2 = some (w - 2) := by unfold subU8; rw [if_pos h2]
    have e2 : addU8 (w - 2) 2 = some w := by
      unfold addU8; rw [if_pos (by omega)]; congr 1; omega
    have hw : BlankingPorchControlWrite.vfp ⟨d⟩ w
        = some ⟨{ d with b0 := (d.b0 &&& not8 0x7F) ||| (w &&& 0x7F) }⟩ := by
      unfold BlankingPorchControlWrite.vfp
      rw [e1]
      show (addU8 (w - 2) 2).map _ = _
      rw [e2]
      rfl
    have hfield : ((d.b0 &&& not8 0x7F) ||| (w &&& 0x7F)) &&& 0x7F = w := by
      rw [mask_merge d.b0 w (not8 0x7F) 0x7F (by decide)]
      exact hwm
    refine ⟨?_, ?_⟩
    · rw [hw]
      show (subU8 (((d.b0 &&& not8 0x7F) ||| (w &&& 0x7F)) &&& 0x7F) 2).bind
          (fun t => addU8 t 2) = some w
      rw [hfield]
      exact porch_decode w h2 (by omega)
    · rw [hw]
      exact congrArg some hfield
  · intro d w h2 hle
    have hwm : w &&& 127 = w := by
      have h := Nat.and_pow_two_sub_one_of_lt_two_pow (n := 7) (x := w) (by omega)
      norm_num at h
      exact h
    have e1 : subU8 w 2 = some (w - 2) := by unfold subU8; rw [if_pos h2]
    have e2 : addU8 (w - 2) 2 = some w := by
      unfold addU8; rw [if_pos (by omega)]; congr 1; omega
    have hw : BlankingPorchControlWrite.vbp ⟨d⟩ w
        = some ⟨{ d with b1 := (d.b1 &&& not8 0x7F) ||| (w &&& 0x7F) }⟩ := by
      unfold BlankingPorchControlWrite.vbp
      rw [e1]
      show (addU8 (w - 2) 2).map _ = _
      rw [e2]
      rfl
    have hfield : ((d.b1 &&& not8 0x7F) ||| (w &&& 0x7F)) &&& 0x7F = w := by
      rw [mask_merge d.b1 w (not8 0x7F) 0x7F (by decide)]
      exact hwm
    refine ⟨?_, ?_⟩
    · rw [hw]
      show (subU8 (((d.b1 &&& not8 0x7F) ||| (w &&& 0x7F)) &&& 0x7F) 2).bind
          (fun t => addU8 t 2) = some w
      rw [hfield]
      exact porch_decode w h2 (by omega)
    · rw [hw]
      exact congrArg some hfield
  · intro d w h2 hle
    have hwm : w &&& 31 = w := by
      have h := Nat.and_pow_two_sub_one_of_lt_two_pow (n := 5) (x := w) (by omega)
      norm_num at h
      exact h
    have e1 : subU8 w 2 = some (w - 2) := by unfold subU8; rw [if_pos h2]
    have e2 : addU8 (w - 2) 2 = some w := by
      unfold addU8; rw [if_pos (by omega)]; congr 1; omega
    have hw : BlankingPorchControlWrite.hfp ⟨d⟩ w
        = some ⟨{ d with b2 := (d.b2 &&& not8 0x1F) ||| (w &&& 0x1F) }⟩ := by
      unfold BlankingPorchControlWrite.hfp
      rw [e1]
      show (addU8 (w - 2) 2).map _ = _
      rw [e2]
      rfl
    have hfield : ((d.b2 &&& not8 0x1F) ||| (w &&& 0x1F)) &&& 0x1F = w := by
      rw [mask_merge d.b2 w (not8 0x1F) 0x1F (by decide)]
      exact hwm
    refine ⟨?_, ?_⟩
    · rw [hw]
      show (subU8 (((d.b2 &&& not8 0x1F) ||| (w &&& 0x1F)) &&& 0x1F) 2).bind
          (fun t => addU8 t 2) = some w
      rw [hfield]
      exact porch_decode w h2 (by omega)
    · rw [hw]
      exact congrArg some hfield
  · intro d w h2 hle
    have hwm : w &&& 31 = w := by
      have h := Nat.and_pow_two_sub_one_of_lt_two_pow (n := 5) (x := w) (by omega)
      norm_num at h
      exact h
    have e1 : subU8 w 2 = some (w - 2) := by unfold subU8; rw [if_pos h2]
    have e2 : addU8 (w - 2) 2 = some w := by
      unfold addU8; rw [if_pos (by omega)]; congr 1; omega
    have hw : BlankingPorchControlWrite.hbp ⟨d⟩ w
        = some ⟨{ d with b3 := (d.b3 &&& not8 0x1F) ||| (w &&& 0x1F) }⟩ := by
      unfold BlankingPorchControlWrite.hbp
      rw [e1]
      show (addU8 (w - 2) 2).map _ = _
      rw [e2]
      rfl
    have hfield : ((d.b3 &&& not8 0x1F) ||| (w &&& 0x1F)) &&& 0x1F = w := by
      rw [mask_merge d.b3 w (not8 0x1F) 0x1F (by decide)]
      exact hwm
    refine ⟨?_, ?_⟩
    · rw [hw]
      show (subU8 (((d.b3 &&& not8 0x1F) ||| (w &&& 0x1F)) &&& 0x1F) 2).bind
          (fun t => addU8 t 2) = some w
      rw [hfield]
      exact porch_decode w h2 (by omega)
    · rw [hw]
      exact congrArg some hfield
  · intro d x h1 h2
    have hs : subI8 x (-63) = some (x + 63) := by
      unfold subI8
      rw [if_pos (show -128 ≤ x - (-63) ∧ x - (-63) ≤ 127 by omega)]
      congr 1
    have hc : i8ToU8 (x + 63) = (x + 63).toNat := by
      unfold i8ToU8
      omega
    have ha : addU8 (x + 63).toNat 1 = some ((x + 63).toNat + 1) := by
      unfold addU8
      rw [if_pos (by omega)]
    have hw : VcomControl2Write.vcomh ⟨d⟩ x
        = some ⟨⟨(d.b0 &&& not8 0x7F) ||| (((x + 63).toNat + 1) &&& 0x7F)⟩⟩ := by
      unfold VcomControl2Write.vcomh
      rw [hs]
      show (addU8 (i8ToU8 (x + 63)) 1).map _ = _
      rw [hc, ha]
      rfl
    have hn : (x + 63).toNat + 1 &&& 127 = (x + 63).toNat + 1 := by
      have h := Nat.and_pow_two_sub_one_of_lt_two_pow (n := 7)
        (x := (x + 63).toNat + 1) (by omega)
      norm_num at h
      exact h
    have hfield : ((d.b0 &&& not8 0x7F) ||| (((x + 63).toNat + 1) &&& 0x7F)) &&& 0x7F
        = (x + 63).toNat + 1 := by
      rw [mask_merge d.b0 ((x + 63).toNat + 1) (not8 0x7F) 0x7F (by decide)]
      exact hn
    refine ⟨?_, ?_⟩
    · rw [hw]
      show (subU8 ((((d.b0 &&& not8 0x7F) |||
          (((x + 63).toNat + 1) &&& 0x7F))) &&& 0x7F) 1).bind
          (fun t => addI8 (u8ToI8 t) (-63)) = some x
      rw [hfield]
      have e1 : subU8 ((x + 63).toNat + 1) 1 = some (x + 63).toNat := by
        unfold subU8
        rw [if_pos (by omega)]
        congr 1
      rw [e1]
      show addI8 (u8ToI8 (x + 63).toNat) (-63) = some x
      have hu : u8ToI8 (x + 63).toNat = ((x + 63).toNat : Int) := by
        unfold u8ToI8
        rw [if_pos (by omega)]
      rw [hu]
      unfold addI8
      rw [if_pos (show -128 ≤ ((x + 63).toNat : Int) + (-63) ∧
        ((x + 63).toNat : Int) + (-63) ≤ 127 by omega)]
      congr 1
      omega
    · rw [hw]
      exact congrArg some (show ((d.b0 &&& not8 0x7F) |||
        (((x + 63).toNat + 1) &&& 0x7F)) &&& 0x7F = (x + 64).toNat by
          rw [hfield]; omega)

/-- Witness for C4 at `vfp = 5` and `vcomh = 0` on the default blocks. -/
theorem claim_C4_witness :
    (BlankingPorchControlWrite.vfp ⟨BlankingPorchControl.default⟩ 5).bind
        (fun v => (v.d.read).vfp) = some 5 ∧
    (VcomControl2Write.vcomh ⟨VcomControl2.default⟩ 0).bind
        (fun v => (v.d.read).vcomh) = some 0 :=
  ⟨(claim_C4_amended.1 BlankingPorchControl.default 5 (by decide) (by decide)).1,
   (claim_C4_amended.2.2.2.2 VcomControl2.default 0 (by decide) (by decide)).1⟩

/-- Zipping with a function that ignores its first argument truncates the
second list at the first list's length, when the first list is no longer
than the second. -/
theorem zipWith_second_take (f : Nat → Nat) :
    ∀ s w : List Nat, s.length ≤ w.length →
      List.zipWith (fun _x y => f y) s w = (w.take s.length).map f
  | [], _, _ => by simp
  | _ :: _, [], h => by simp at h
  | a :: s, b :: w, h => by
    simp only [List.zipWith, List.length_cons, List.take_succ_cons, List.map]
    rw [zipWith_second_take f s w (by simpa using h)]

/-- A `zip`-masked write whose input is no longer than the target segment
replaces the segment's prefix with the masked input and keeps the
segment's tail. -/
theorem zipMask_short (seg w : List Nat) (h : w.length ≤ seg.length) :
    zipMask seg w = w.map (fun x => x &&& 0x3F) ++ seg.drop w.length := by
  unfold zipMask
  rw [zipWith_second (fun y => y &&& 0x3F) seg w h]

/-- A `zip`-masked write whose input is at least as long as the target
segment replaces the whole segment with the masked, truncated input; the
input's tail is ignored. -/
theorem zipMask_long (seg w : List Nat) (h : seg.length ≤ w.length) :
    zipMask seg w = ((w.take seg.length).map fun x => x &&& 0x3F) := by
  unfold zipMask
  rw [List.drop_eq_nil_of_le h, List.append_nil]
  rw [zipWith_second_take (fun y => y &&& 0x3F) seg w h]

/-- C6 amended: each of the three blob setters `r`/`g`/`b` of `ColorSet`
copies input bytes through the per-element `& 0x3F` mask into its fixed
subrange (`[0,32)`, `[32,96)`, `[96,128)`), stopping at the shorter of
input length and subrange length, and reports no error for a mismatched
length: a shorter input updates only its prefix of the subrange, leaving
the rest of the subrange and of the buffer unchanged, a longer input is
truncated to the subrange with its tail ignored, and a full-length input
is reproduced on read modulo the mask. -/
theorem claim_C6_amended :
    (∀ (d : ColorSet) (w : List Nat), d.data.length = 128 → w.length ≤ 32 →
      (d.write fun u => u.r w).data
        = (w.map fun x => x &&& 0x3F) ++ (d.data.take 32).drop w.length
            ++ d.data.drop 32) ∧
    (∀ (d : ColorSet) (w : List Nat), d.data.length = 128 → 32 ≤ w.length →
      (d.write fun u => u.r w).data
        = ((w.take 32).map fun x => x &&& 0x3F) ++ d.data.drop 32) ∧
    (∀ (d : ColorSet) (w : List Nat), d.data.length = 128 → w.length ≤ 64 →
      (d.write fun u => u.g w).data
        = d.data.take 32 ++ ((w.map fun x => x &&& 0x3F)
            ++ ((d.data.drop 32).take 64).drop w.length) ++ d.data.drop 96) ∧
    (∀ (d : ColorSet) (w : List Nat), d.data.length = 128 → 64 ≤ w.length →
      (d.write fun u => u.g w).data
        = d.data.take 32 ++ ((w.take 64).map fun x => x &&& 0x3F)
            ++ d.data.drop 96) ∧
    (∀ (d : ColorSet) (w : List Nat), d.data.length = 128 → w.length ≤ 32 →
      (d.write fun u => u.b w).data
        = d.data.take 96 ++ ((w.map fun x => x &&& 0x3F)
            ++ (d.data.drop 96).drop w.length)) ∧
    (∀ (d : ColorSet) (w : List Nat), d.data.length = 128 → 32 ≤ w.length →
      (d.write fun u => u.b w).data
        = d.data.take 96 ++ ((w.take 32).map fun x => x &&& 0x3F)) ∧
    (∀ w : List Nat, w.length = 32 →
      ((ColorSet.default.write fun u => u.r w).read).r
        = w.map fun x => x &&& 0x3F) ∧
    (∀ w : List Nat, w.length = 64 →
      ((ColorSet.default.write fun u => u.g w).read).g
        = w.map fun x => x &&& 0x3F) ∧
    (∀ w : List Nat, w.length = 32 →
      ((ColorSet.default.write fun u => u.b w).read).b
        = w.map fun x => x &&& 0x3F) ∧
    ((ColorSet.default.write fun u => u.r [0x7F]).data
      = 63 :: List.replicate 127 0) := by
  refine ⟨?_, ?_, ?_, ?_, ?_, ?_, ?_, ?_, ?_, by decide⟩
  · intro d w hd hw
    show zipMask (d.data.take 32) w ++ d.data.drop 32 = _
    rw [zipMask_short (d.data.take 32) w (by simp [hd]; omega), List.append_assoc]
  · intro d w hd hw
    show zipMask (d.data.take 32) w ++ d.data.drop 32 = _
    have hlen : (d.data.take 32).length = 32 := by simp [hd]
    rw [zipMask_long (d.data.take 32) w (by omega), hlen]
  · intro d w hd hw
    show d.data.take 32 ++ zipMask ((d.data.drop 32).take 64) w ++ d.data.drop 96
        = _
    rw [zipMask_short ((d.data.drop 32).take 64) w (by simp [hd]; omega)]
  · intro d w hd hw
    show d.data.take 32 ++ zipMask ((d.data.drop 32).take 64) w ++ d.data.drop 96
        = _
    have hlen : ((d.data.drop 32).take 64).length = 64 := by simp [hd]
    rw [zipMask_long ((d.data.drop 32).take 64) w (by omega), hlen]
  · intro d w hd hw
    show d.data.take 96 ++ zipMask (d.data.drop 96) w = _
    rw [zipMask_short (d.data.drop 96) w (by simp [hd]; omega)]
  · intro d w hd hw
    show d.data.take 96 ++ zipMask (d.data.drop 96) w = _
    have hlen : (d.data.drop 96).length = 32 := by simp [hd]
    rw [zipMask_long (d.data.drop 96) w (by omega), hlen]
  · intro w hw
    show (zipMask ((List.replicate 128 (0 : Nat)).take 32) w
        ++ (List.replicate 128 (0 : Nat)).drop 32).take 32 = _
    rw [zipMask_short ((List.replicate 128 (0 : Nat)).take 32) w (by simp [hw]),
      List.append_assoc]
    exact List.take_left' (by simp [hw])
  · intro w hw
    show (((List.replicate 128 (0 : Nat)).take 32
        ++ zipMask (((List.replicate 128 (0 : Nat)).drop 32).take 64) w
        ++ (List.replicate 128 (0 : Nat)).drop 96).drop 32).take 64 = _
    rw [List.append_assoc, List.drop_left' (by simp)]
    rw [zipMask_short (((List.replicate 128 (0 : Nat)).drop 32).take 64) w
      (by simp [hw])]
    rw [hw]
    have h2 : (((List.replicate 128 (0 : Nat)).drop 32).take 64).drop 64 = [] := by
      simp
    rw [h2, List.append_nil]
    exact List.take_left' (by simp [hw])
  · intro w hw
    show ((List.replicate 128 (0 : Nat)).take 96
        ++ zipMask ((List.replicate 128 (0 : Nat)).drop 96) w).drop 96 = _
    rw [List.drop_left' (by simp)]
    rw [zipMask_short ((List.replicate 128 (0 : Nat)).drop 96) w (by simp [hw])]
    rw [hw]
    have h2 : ((List.replicate 128 (0 : Nat)).drop 96).drop 32 = [] := by simp
    rw [h2, List.append_nil]

/-- Witness for C6: a full-length all-0x7F input to `r` reads back as the
masked constant list, a 40-byte input to `b` is truncated to the 32-byte
subrange, and a 1-byte input to `g` updates only the first subrange byte. -/
theorem claim_C6_witness :
    ((ColorSet.default.write fun u => u.r (List.replicate 32 0x7F)).read).r
      = (List.replicate 32 0x7F).map (fun x => x &&& 0x3F) ∧
    (ColorSet.default.write fun u => u.b (List.replicate 40 0xFF)).data
      = ColorSet.default.data.take 96
          ++ (((List.replicate 40 0xFF).take 32).map fun x => x &&& 0x3F) ∧
    (ColorSet.default.write fun u => u.g [0x55]).data
      = ColorSet.default.data.take 32 ++ (([0x55].map fun x => x &&& 0x3F)
          ++ ((ColorSet.default.data.drop 32).take 64).drop 1)
          ++ ColorSet.default.data.drop 96 :=
  ⟨claim_C6_amended.2.2.2.2.2.2.1 (List.replicate 32 0x7F) (by simp),
   claim_C6_amended.2.2.2.2.2.1 ColorSet.default (List.replicate 40 0xFF)
     (by decide) (by simp),
   claim_C6_amended.2.2.1 ColorSet.default [0x55] (by decide) (by simp)⟩

end Ili9341
